import Mathlib

/-!
Shallow embedding of the BLE data-plane layer of the zephyr-rust-wrappers
repository: UUID expansion/reduction (src/bluetooth/uuid.rs), advertising
record encode/decode (src/bluetooth/data.rs), the error taxonomy
(src/lib.rs), the single-use enable capability and set_name
(src/bluetooth/api.rs), and parameter conversions (src/bluetooth/le.rs).

Bytes are modelled as `Nat` (values < 256 where produced by the code),
byte buffers as `List Nat`, Rust `Option<T>` as `Option`, panics as
`Option.none` of the modelled result, and `Result<T, ZephyrError>` as
`Except ZephyrError T`. External host calls (`bt_enable`, `bt_set_name`)
are modelled by passing the host's returned status code as an argument.
-/

namespace ZephyrWrappers

/-! ### UUID embedding (src/bluetooth/uuid.rs)

A `uuid::Uuid` is 16 bytes in canonical (big-endian textual) order,
modelled as a `List Nat` of length 16.

`Uuid::from_fields(d1, d2, d3, d4)` (uuid crate) stores `d1 : u32`,
`d2 d3 : u16` in big-endian byte order followed by the 8 bytes of `d4`.
`Uuid::to_fields_le` reads the first three fields back in little-endian
byte order; only its first component `d1` is used by the source
(`let (d1, ..) = bt_uuid.0.to_fields_le()`). -/

/-- `BT_BASE_D4` from src/bluetooth/uuid.rs. -/
def BT_BASE_D4 : List Nat := [0x80, 0x00, 0x00, 0x80, 0x5F, 0x9B, 0x34, 0xFB]

/-- `uuid::Uuid::from_fields`: d1/d2/d3 stored big-endian, then d4. -/
def from_fields (d1 d2 d3 : Nat) (d4 : List Nat) : List Nat :=
  [d1 / 2 ^ 24 % 256, d1 / 2 ^ 16 % 256, d1 / 2 ^ 8 % 256, d1 % 256,
   d2 / 2 ^ 8 % 256, d2 % 256,
   d3 / 2 ^ 8 % 256, d3 % 256] ++ d4

/-- First component of `uuid::Uuid::to_fields_le`: the first four stored
bytes read in little-endian order. -/
def to_fields_le_d1 (bytes : List Nat) : Nat :=
  bytes.getD 0 0 + bytes.getD 1 0 * 2 ^ 8 + bytes.getD 2 0 * 2 ^ 16 +
    bytes.getD 3 0 * 2 ^ 24

/-- `impl From<u32> for BtUuid`: `Uuid::from_fields(number, BT_BASE_D2,
BT_BASE_D3, &BT_BASE_D4)` with `BT_BASE_D2 = 0x0000`, `BT_BASE_D3 = 0x1000`. -/
def btUuid_from_u32 (number : Nat) : List Nat :=
  from_fields (number % 2 ^ 32) 0x0000 0x1000 BT_BASE_D4

/-- `impl From<u16> for BtUuid`: same with `number as u32`. -/
def btUuid_from_u16 (number : Nat) : List Nat :=
  btUuid_from_u32 (number % 2 ^ 16)

/-- `impl From<BtUuid> for BtUuid32`: `let (d1, ..) = bt_uuid.0.to_fields_le()`,
`val: d1`. -/
def btUuid32_from (bt_uuid : List Nat) : Nat :=
  to_fields_le_d1 bt_uuid

/-- `impl From<BtUuid> for BtUuid16`: `val: d1 as u16`. -/
def btUuid16_from (bt_uuid : List Nat) : Nat :=
  to_fields_le_d1 bt_uuid % 2 ^ 16

/-- `BtUuid::from_uuid`: reverses the 16 bytes (bluetooth on-air order). -/
def btUuid_from_uuid (bytes : List Nat) : List Nat :=
  bytes.reverse

/-! ### Raw UUID comparison (src/bluetooth/uuid.rs, `compare_uuids`)

A raw `bt_uuid` value in well-typed memory is a tag
(`BT_UUID_TYPE_16 = 0`, `BT_UUID_TYPE_32 = 1`, `BT_UUID_TYPE_128 = 2`)
together with the value of the corresponding width; the source first
compares the tags (different tags yield `false`) and then reinterprets
both operands at the common width and compares the `val` fields. -/

inductive RawUuid where
  | u16v (val : Nat)
  | u32v (val : Nat)
  | u128v (val : List Nat)
  deriving DecidableEq

/-- The `type_` discriminant byte of a raw `bt_uuid`. -/
def RawUuid.tag : RawUuid → Nat
  | .u16v _ => 0
  | .u32v _ => 1
  | .u128v _ => 2

/-- `compare_uuids`: `false` when the `type_` tags differ, otherwise the
`val` fields at the common width are compared. -/
def compare_uuids : RawUuid → RawUuid → Bool
  | .u128v a, .u128v b => a == b
  | .u32v a, .u32v b => a == b
  | .u16v a, .u16v b => a == b
  | _, _ => false

/-! ### Advertising records (src/bluetooth/data.rs)

`BtData` is the typed advertising record. A `BtUuid` payload member is the
16 canonical bytes of the wrapped `uuid::Uuid` (`uuid.as_bytes()`);
strings are their UTF-8 bytes. Zephyr constants: `BT_DATA_FLAGS = 0x01`,
`BT_DATA_UUID128_ALL = 0x07`. -/

inductive BtData where
  | Flags (flag : Nat)
  | UuidIncomplete (uuids : List (List Nat))
  | UuidAll (uuids : List (List Nat))
  | CompleteName (name : List Nat)
  | CompleteNameStatic (name : List Nat)
  | ShortenedName (name : List Nat)
  | UnknownType (type_number : Nat)
  deriving DecidableEq

/-- `BtData::type_number`. -/
def BtData.type_number : BtData → Nat
  | .Flags _ => 0x01
  | .UuidAll _ => 0x07
  | .CompleteName _ | .CompleteNameStatic _ => 0x09
  | .UnknownType t => t
  | .UuidIncomplete _ => 0x06
  | .ShortenedName _ => 0x08

/-- `BtData::data`: the record payload bytes. UUID lists concatenate each
member's 16 `as_bytes()` bytes; names are their UTF-8 bytes; `Flags` is the
single flag byte (`u8::to_be_bytes`); `UnknownType` yields `vec![]`. -/
def BtData.data : BtData → List Nat
  | .Flags flag => [flag]
  | .UuidAll uuids => uuids.flatMap id
  | .CompleteName name => name
  | .CompleteNameStatic name => name
  | .UnknownType _ => []
  | .UuidIncomplete uuids => uuids.flatMap id
  | .ShortenedName name => name

/-- `RawBtData`: type byte plus owned payload bytes. -/
structure RawBtData where
  type_ : Nat
  data : List Nat
  deriving DecidableEq

/-- `BtData::raw`. -/
def BtData.raw (bt_data : BtData) : RawBtData :=
  { type_ := bt_data.type_number, data := bt_data.data }

/-- The wire struct `zephyr_sys::raw::bt_data` (`ZBtData`): type byte,
`u8` length field, and the pointed-to payload (modelled by the byte list
itself). -/
structure ZBtData where
  type_ : Nat
  data_len : Nat
  data : List Nat
  deriving DecidableEq

/-- `RawBtData::sys_ref`: `data_len` is `self.data.len() as u8`. -/
def RawBtData.sys_ref (raw : RawBtData) : ZBtData :=
  { type_ := raw.type_, data_len := raw.data.length % 256, data := raw.data }

/-- Rust `slice::chunks(16)`: consecutive chunks of 16 elements, the last
one possibly shorter; an empty slice yields no chunks. -/
def chunks16 (l : List Nat) : List (List Nat) :=
  if l = [] then []
  else l.take 16 :: chunks16 (l.drop 16)
termination_by l.length
decreasing_by
  rename_i h
  simp only [List.length_drop]
  have : 0 < l.length := List.length_pos.mpr h
  omega

/-- `Uuid::from_slice(chunk)` (uuid crate): succeeds exactly on 16-byte
slices; `.unwrap()` panics otherwise, modelled as `none`. The result is fed
through `BtUuid::from_uuid`, which reverses the bytes. -/
def btUuid_of_chunk (chunk : List Nat) : Option (List Nat) :=
  if chunk.length = 16 then some chunk.reverse else none

/-- The `.map(|chunk| BtUuid::from_uuid(Uuid::from_slice(chunk).unwrap()))
.collect()` pipeline of the UUID branches of `BtData::from_raw`: chunks are
converted left to right, and the first panicking `unwrap` (modelled
`none`) aborts the whole collection. -/
def collectUuids : List (List Nat) → Option (List (List Nat))
  | [] => some []
  | chunk :: rest =>
    match btUuid_of_chunk chunk with
    | none => none
    | some u => (collectUuids rest).map (u :: ·)

/-- `BtData::from_raw` on a record with type byte `type_` and payload
slice `payload` (the `data_len` bytes behind the data pointer). The UUID
branches map `Uuid::from_slice(..).unwrap()` over `chunks(16)`; a panic of
the `unwrap` is modelled as an overall `none`. The `Flags` branch
dereferences the data pointer (first payload byte). `from_utf8_lossy` is
modelled as the identity on the byte list. In the source every branch
returns `Some(..)`, so `some` here is the source's `Some` and `none` is
reached only through the modelled panic. -/
def BtData.from_raw (type_ : Nat) (payload : List Nat) : Option BtData :=
  if type_ = 0x07 then
    (collectUuids (chunks16 payload)).map BtData.UuidAll
  else if type_ = 0x01 then
    some (.Flags (payload.headD 0))
  else if type_ = 0x06 then
    (collectUuids (chunks16 payload)).map BtData.UuidIncomplete
  else if type_ = 0x08 then
    some (.ShortenedName payload)
  else
    some (.UnknownType (type_ % 256))

/-! ### Error taxonomy (src/lib.rs) -/

inductive ErrorNumber where
  | Permission
  | NotImplemented
  | NotConnected
  | Other (errno : Int)
  deriving DecidableEq

/-- `impl From<i32> for ErrorNumber`: the match arms are `1`, `88 | -88`,
`128 | -128`, and a catch-all producing `Other(errno.abs())`. `i32::abs` is
modelled as `Int.natAbs` (it agrees on every `i32` except `i32::MIN`). -/
def ErrorNumber.from_errno (errno : Int) : ErrorNumber :=
  if errno = 1 then .Permission
  else if errno = 88 ∨ errno = -88 then .NotImplemented
  else if errno = 128 ∨ errno = -128 then .NotConnected
  else .Other errno.natAbs

/-- `ZephyrError`: an `ErrorNumber` plus an optional context name
(`&'static dyn Context` modelled by the context's `name()`). -/
structure ZephyrError where
  errno : ErrorNumber
  context : Option String
  deriving DecidableEq

/-- The bluetooth `CONTEXT` (src/bluetooth/mod.rs): `name()` is
`"bluetooth"`. -/
def btContext : String := "bluetooth"

/-- `ZephyrError::new_with_context`. -/
def ZephyrError.new_with_context (errno : ErrorNumber) (context : String) :
    ZephyrError :=
  { errno := errno, context := some context }

/-- `ZephyrError::from_errno_with_context`. -/
def ZephyrError.from_errno_with_context (errno : Int) (context : String) :
    ZephyrError :=
  { errno := ErrorNumber.from_errno errno, context := some context }

/-! ### Enable capability and set_name (src/bluetooth/api.rs)

The `static mut API_CONTAINER: ApiContainer` is made explicit: each
operation takes the container state (`Option Api`, the `api` field) and
returns the new state. `Option::unwrap` on `None` panics, modelled as an
overall `none` result. The host calls `bt_enable` / `bt_set_name` are
modelled by passing their returned status code as an argument. -/

/-- The marker type `Api` ("Only one instance is allowed to exist!"). -/
inductive Api where
  | mk
  deriving DecidableEq

/-- `ApiContainer::take_api`: `replace(&mut self.api, None).unwrap()` —
returns the held `Api` and leaves `None` behind, panicking (modelled
`none`) when the container is already empty. -/
def take_api : Option Api → Option (Api × Option Api)
  | some api => some (api, none)
  | none => none

/-- Initial value of `API_CONTAINER`: `ApiContainer { api: Some(Api {}) }`. -/
def API_CONTAINER_init : Option Api := some .mk

/-- `Api::enable`: first takes the `Api` out of the container (panicking
if it is gone), then runs the host `bt_enable`; a non-zero host status
becomes an `Err` (the taken `Api` is dropped either way the container
stays empty). Result: `none` = panic, otherwise the `Result` together with
the new container state. -/
def Api.enable (container : Option Api) (hostStatus : Int) :
    Option (Except ZephyrError Api × Option Api) :=
  match take_api container with
  | none => none
  | some (api, container1) =>
    if hostStatus = 0 then some (.ok api, container1)
    else
      some (.error (ZephyrError.from_errno_with_context hostStatus btContext),
        container1)

/-- `set_name` (free function, src/bluetooth/api.rs): `CString::new(name)`
fails exactly when the name bytes contain an interior NUL, mapped to a
`NotImplemented` error with the bluetooth context; otherwise
`bt_set_name` runs and a non-zero status becomes an error. -/
def set_name (name : List Nat) (hostStatus : Int) : Except ZephyrError Unit :=
  if (0 : Nat) ∈ name then
    .error (ZephyrError.new_with_context .NotImplemented btContext)
  else if hostStatus ≠ 0 then
    .error (ZephyrError.from_errno_with_context hostStatus btContext)
  else .ok ()

/-! ### Parameter conversions (src/bluetooth/le.rs)

The bitflags wrappers are structures holding their underlying integer
(`bits`). The nullable `peer: *const bt_addr_le_t` of the wire struct is
modelled as `Option LeAddress` (`none` = null pointer): the source
transmutes `Option<&LeAddress>`, which maps `None` to null and `Some` to
a reference. -/

inductive AddressType where
  | Public
  | Random
  | PublicId
  | RandomId
  | Other (n : Nat)
  deriving DecidableEq

structure LeAddress where
  address : List Nat
  addr_type : AddressType
  deriving DecidableEq

structure AdvertisementOptions where
  bits : Nat
  deriving DecidableEq

structure ScanOptions where
  bits : Nat
  deriving DecidableEq

structure ScanType where
  bits : Nat
  deriving DecidableEq

structure AdvertisementParameters where
  id : Nat
  sid : Nat
  secondary_max_skip : Nat
  options : AdvertisementOptions
  interval_min : Nat
  interval_max : Nat
  peer : Option LeAddress
  deriving DecidableEq

/-- The wire struct `zephyr_sys::raw::bt_le_adv_param`. -/
structure bt_le_adv_param where
  id : Nat
  sid : Nat
  secondary_max_skip : Nat
  options : Nat
  interval_min : Nat
  interval_max : Nat
  peer : Option LeAddress
  deriving DecidableEq

/-- `impl From<&AdvertisementParameters> for bt_le_adv_param`. -/
def bt_le_adv_param.from (other : AdvertisementParameters) : bt_le_adv_param :=
  { id := other.id
    sid := other.sid
    secondary_max_skip := other.secondary_max_skip
    options := other.options.bits
    interval_min := other.interval_min
    interval_max := other.interval_max
    peer := other.peer }

structure ScanParameters where
  type_ : ScanType
  options : ScanOptions
  interval : Nat
  window : Nat
  timeout : Nat
  interval_coded : Nat
  window_coded : Nat
  deriving DecidableEq

/-- The wire struct `zephyr_sys::raw::bt_le_scan_param`. -/
structure bt_le_scan_param where
  type_ : Nat
  interval : Nat
  window : Nat
  options : Nat
  timeout : Nat
  window_coded : Nat
  interval_coded : Nat
  deriving DecidableEq

/-- `impl From<&ScanParameters> for bt_le_scan_param`. -/
def bt_le_scan_param.from (other : ScanParameters) : bt_le_scan_param :=
  { type_ := other.type_.bits
    interval := other.interval
    window := other.window
    options := other.options.bits
    timeout := other.timeout
    window_coded := other.window_coded
    interval_coded := other.interval_coded }

/-! ### Theorems -/

/-- C1: the claimed round trip `reduce16(expand(n)) = n` /
`reduce32(expand(n)) = n` fails on the code: the expansion
(`From<u16>`/`From<u32>` for `BtUuid`) stores the short value big-endian
via `Uuid::from_fields`, but the extraction (`From<BtUuid>` for
`BtUuid16`/`BtUuid32`) reads it back little-endian via
`Uuid::to_fields_le`. At `n = 0x180D` the 16-bit round trip returns `0`
and the 32-bit round trip returns the byte-swapped value `0x0D180000`. -/
theorem uuid_roundtrip_evaluation :
    btUuid16_from (btUuid_from_u16 0x180D) = 0 ∧
    btUuid32_from (btUuid_from_u32 0x180D) = 0x0D180000 ∧
    (0 : Nat) ≠ 0x180D ∧ (0x0D180000 : Nat) ≠ 0x180D := by
  decide

/-- C2 counterexample: encoding `CompleteName("abc")` yields a wire
struct whose length field is `3`, the payload length, not `4 = 3 + 1` as
claimed. -/
theorem completeName_len_field_is_three :
    ((BtData.CompleteName [0x61, 0x62, 0x63]).raw.sys_ref).data_len = 3 ∧
    (3 : Nat) ≠ 3 + 1 := by
  decide

/-- C2 (amended): for every record the wire struct's length field is the
payload length (`data.len() as u8`), with no `+ 1`; the type byte is
`type_number`; concretely `CompleteName("abc")` encodes to type `0x09`,
length `3`, payload `'a' 'b' 'c'`. -/
theorem sys_ref_length_is_payload_length (record : BtData) :
    (record.raw.sys_ref).data_len = record.data.length % 256 ∧
    (record.raw.sys_ref).type_ = record.type_number ∧
    (BtData.CompleteName [0x61, 0x62, 0x63]).raw.sys_ref =
      ⟨0x09, 3, [0x61, 0x62, 0x63]⟩ := by
  refine ⟨rfl, rfl, by decide⟩

/-- C3 counterexample: decoding a record with unknown type byte `0xFF`
and payload `[1, 2, 3]` yields `UnknownType 0xFF`, which carries no
payload; re-encoding it produces an empty payload, so the original
`len`/`value` are not reproduced. -/
theorem unknown_record_payload_dropped :
    BtData.from_raw 0xFF [1, 2, 3] = some (.UnknownType 0xFF) ∧
    (BtData.UnknownType 0xFF).raw.data = [] ∧
    ([] : List Nat) ≠ [1, 2, 3] := by
  refine ⟨by decide, by decide, by decide⟩

/-- C3 (amended): a record with an unknown type byte is preserved only as
its type byte: decoding yields `UnknownType type_`, the payload is
dropped, and re-encoding produces the same type byte with an empty
payload. -/
theorem unknown_record_keeps_type_only (type_ : Nat) (payload : List Nat)
    (h7 : type_ ≠ 0x07) (h1 : type_ ≠ 0x01) (h6 : type_ ≠ 0x06)
    (h8 : type_ ≠ 0x08) (hbyte : type_ < 256) :
    BtData.from_raw type_ payload = some (.UnknownType type_) ∧
    (BtData.UnknownType type_).raw = ⟨type_, []⟩ := by
  constructor
  · simp [BtData.from_raw, h7, h1, h6, h8, Nat.mod_eq_of_lt hbyte]
  · rfl

/-- C3 witness for `unknown_record_keeps_type_only` at type byte `0xFE`. -/
theorem unknown_record_keeps_type_only_at_0xFE :
    BtData.from_raw 0xFE [9, 9] = some (.UnknownType 0xFE) :=
  (unknown_record_keeps_type_only 0xFE [9, 9] (by decide) (by decide)
    (by decide) (by decide) (by decide)).1

/-- C4 counterexample: `UuidAll [BtUuid::from(0x180D_u16)]` (the complete
UUID list holding the one short UUID `0x180D`) encodes with a 16-byte
payload, not `2 * 1` bytes: every `BtUuid` is stored as its full 128-bit
expansion. -/
theorem uuid_list_payload_is_16_bytes_per_uuid :
    (BtData.UuidAll [btUuid_from_u16 0x180D]).raw.type_ = 0x07 ∧
    (BtData.UuidAll [btUuid_from_u16 0x180D]).raw.data.length = 16 ∧
    (16 : Nat) ≠ 2 * 1 := by
  refine ⟨by decide, by decide, by decide⟩

/-- C4 (amended): encoding a complete UUID list of N UUIDs produces type
byte `0x07` (`BT_DATA_UUID128_ALL`) and a payload of 16 bytes per UUID
(16·N bytes total): each list member contributes the 16 bytes of its full
128-bit form, regardless of the width it was built from. -/
theorem uuidAll_encodes_16N_bytes (uuids : List (List Nat))
    (h : ∀ u ∈ uuids, u.length = 16) :
    (BtData.UuidAll uuids).raw.type_ = 0x07 ∧
    (BtData.UuidAll uuids).raw.data.length = 16 * uuids.length ∧
    (BtData.UuidAll [btUuid_from_u16 0x180D]).raw.data =
      btUuid_from_u16 0x180D := by
  refine ⟨rfl, ?_, by decide⟩
  induction uuids with
  | nil => rfl
  | cons u us ih =>
    have hu : u.length = 16 := h u (by simp)
    have hrec := ih (fun v hv => h v (by simp [hv]))
    simp only [BtData.raw, BtData.data, List.flatMap_cons, id,
      List.length_append, List.length_cons] at hrec ⊢
    omega

/-- C4 witness for `uuidAll_encodes_16N_bytes` at the single-element list
holding the expansion of `0x180D`. -/
theorem uuidAll_encodes_16N_bytes_at_180D :
    (BtData.UuidAll [btUuid_from_u16 0x180D]).raw.data.length = 16 * 1 :=
  (uuidAll_encodes_16N_bytes [btUuid_from_u16 0x180D]
    (by intro u hu; simp at hu; subst hu; decide)).2.1

/-- C5: `compare_uuids` is width-sensitive: two raw UUIDs with different
`type_` tags compare `false` even if numerically coincident, and two of
the same width compare `true` exactly when their `val` fields are equal;
concretely `Short16(0x1234)` equals `Short16(0x1234)` and differs from
`Short32(0x1234)`. -/
theorem compare_uuids_width_sensitive (a b : RawUuid) :
    (a.tag ≠ b.tag → compare_uuids a b = false) ∧
    (a.tag = b.tag → (compare_uuids a b = true ↔ a = b)) ∧
    compare_uuids (.u16v 0x1234) (.u16v 0x1234) = true ∧
    compare_uuids (.u16v 0x1234) (.u32v 0x1234) = false := by
  refine ⟨?_, ?_, by decide, by decide⟩ <;>
    cases a <;> cases b <;> simp [RawUuid.tag, compare_uuids]

/-- C5 witness for `compare_uuids_width_sensitive`: numerically equal
16-bit and 32-bit raw UUIDs compare `false`. -/
theorem compare_uuids_width_sensitive_at_5 :
    compare_uuids (.u16v 5) (.u32v 5) = false :=
  (compare_uuids_width_sensitive (.u16v 5) (.u32v 5)).1 (by decide)

/-- C6 counterexample: the classification does not normalize to the
absolute value first: `-1` maps to `Other 1`, not to `Permission` as the
claim requires. -/
theorem errno_minus_one_is_other :
    ErrorNumber.from_errno (-1) = .Other 1 ∧
    ErrorNumber.Other 1 ≠ .Permission := by
  decide

/-- C6 (amended): `88`/`-88` map to `NotImplemented`, `128`/`-128` map to
`NotConnected`, but only positive `1` maps to `Permission` (`-1` falls
through to `Other 1`); every code outside these match arms maps to
`Other(|code|)`. -/
theorem errno_classification (code : Int)
    (hlo : -(2 ^ 31) < code) (hhi : code < 2 ^ 31)
    (h1 : code ≠ 1) (h88 : code ≠ 88) (h88n : code ≠ -88)
    (h128 : code ≠ 128) (h128n : code ≠ -128) :
    ErrorNumber.from_errno code = .Other code.natAbs ∧
    ErrorNumber.from_errno 1 = .Permission ∧
    ErrorNumber.from_errno (-1) = .Other 1 ∧
    ErrorNumber.from_errno 88 = .NotImplemented ∧
    ErrorNumber.from_errno (-88) = .NotImplemented ∧
    ErrorNumber.from_errno 128 = .NotConnected ∧
    ErrorNumber.from_errno (-128) = .NotConnected := by
  refine ⟨?_, by decide, by decide, by decide, by decide, by decide, by decide⟩
  simp [ErrorNumber.from_errno, h1, h88, h88n, h128, h128n]

/-- C6 witness for `errno_classification` at code `-2`. -/
theorem errno_classification_at_minus_two :
    ErrorNumber.from_errno (-2) = .Other 2 :=
  (errno_classification (-2) (by decide) (by decide) (by decide) (by decide)
    (by decide) (by decide) (by decide)).1

/-- C7: the enable capability is single-use: starting from the initial
container the first `Api::enable` returns the one `Api` handle when the
host `bt_enable` reports `0`; any first call leaves the container empty,
and a call on the empty container panics (`none`) — it never produces a
second live handle. -/
theorem enable_capability_single_use :
    Api.enable API_CONTAINER_init 0 = some (.ok .mk, none) ∧
    (∀ (status : Int) (result : Except ZephyrError Api)
      (container : Option Api),
      Api.enable API_CONTAINER_init status = some (result, container) →
      container = none) ∧
    (∀ status : Int, Api.enable (none : Option Api) status = none) := by
  refine ⟨rfl, ?_, fun _ => rfl⟩
  intro status result container heq
  by_cases h0 : status = 0 <;>
    simp [Api.enable, take_api, API_CONTAINER_init, h0] at heq <;>
    exact heq.2.symm

/-- C7 witness for `enable_capability_single_use`: after the successful
first enable the container is empty. -/
theorem enable_capability_single_use_after_first :
    (none : Option Api) = none :=
  enable_capability_single_use.2.1 0 (.ok .mk) none rfl

/-- C8: `set_name` on a name containing an embedded NUL byte returns a
`NotImplemented`-kind error (no panic); on a NUL-free name it performs
the host call and returns `Ok` exactly when the host status is `0`. -/
theorem set_name_nul_and_status (name : List Nat) (hostStatus : Int) :
    ((0 : Nat) ∈ name →
      set_name name hostStatus =
        .error (ZephyrError.new_with_context .NotImplemented btContext)) ∧
    ((0 : Nat) ∉ name →
      (set_name name hostStatus = .ok () ↔ hostStatus = 0)) := by
  constructor
  · intro h
    simp [set_name, h]
  · intro h
    constructor
    · intro heq
      by_cases h0 : hostStatus = 0
      · exact h0
      · simp [set_name, h, h0] at heq
    · intro h0
      simp [set_name, h, h0]

/-- C8 witness for `set_name_nul_and_status`: the NUL-free name `"a"`
with host status `0` yields `Ok`. -/
theorem set_name_ok_on_nul_free :
    set_name [0x61] 0 = .ok () :=
  ((set_name_nul_and_status [0x61] 0).2 (by decide)).mpr rfl

/-- C9: both parameter conversions are pure field-for-field copies:
integer fields are copied unchanged, bitset fields are flattened via
`bits()`, and the optional peer address maps to the nullable pointer
field (`none` = null, `some` = reference to the address). -/
theorem param_conversions_field_copy (p : AdvertisementParameters)
    (s : ScanParameters) :
    (bt_le_adv_param.from p).id = p.id ∧
    (bt_le_adv_param.from p).sid = p.sid ∧
    (bt_le_adv_param.from p).secondary_max_skip = p.secondary_max_skip ∧
    (bt_le_adv_param.from p).options = p.options.bits ∧
    (bt_le_adv_param.from p).interval_min = p.interval_min ∧
    (bt_le_adv_param.from p).interval_max = p.interval_max ∧
    (bt_le_adv_param.from p).peer = p.peer ∧
    (bt_le_scan_param.from s).type_ = s.type_.bits ∧
    (bt_le_scan_param.from s).options = s.options.bits ∧
    (bt_le_scan_param.from s).interval = s.interval ∧
    (bt_le_scan_param.from s).window = s.window ∧
    (bt_le_scan_param.from s).timeout = s.timeout ∧
    (bt_le_scan_param.from s).interval_coded = s.interval_coded ∧
    (bt_le_scan_param.from s).window_coded = s.window_coded :=
  ⟨rfl, rfl, rfl, rfl, rfl, rfl, rfl, rfl, rfl, rfl, rfl, rfl, rfl, rfl⟩

/-- Unfolding equation for `chunks16`. -/
theorem chunks16_eq (l : List Nat) :
    chunks16 l = if l = [] then [] else l.take 16 :: chunks16 (l.drop 16) := by
  rw [chunks16]

/-- A payload whose length is not a multiple of 16 has a trailing chunk
shorter than 16 bytes, so the UUID collection panics (`none`). -/
theorem collectUuids_chunks_non_multiple (l : List Nat)
    (h : l.length % 16 ≠ 0) : collectUuids (chunks16 l) = none := by
  induction l using chunks16.induct with
  | case1 =>
    simp at h
  | case2 l hl ih =>
    rw [chunks16_eq, if_neg hl]
    by_cases hlen : 16 ≤ l.length
    · have hdrop : (l.drop 16).length % 16 ≠ 0 := by
        simp only [List.length_drop]
        omega
      simp [collectUuids, btUuid_of_chunk, hlen, ih hdrop]
    · simp [collectUuids, btUuid_of_chunk, hlen]

/-- A payload of exactly `16 * n` bytes splits into `n` full chunks, each
of which converts, so the collection yields `n` UUIDs. -/
theorem collectUuids_chunks_multiple (n : Nat) :
    ∀ l : List Nat, l.length = 16 * n →
      ∃ uuids, collectUuids (chunks16 l) = some uuids ∧ uuids.length = n := by
  induction n with
  | zero =>
    intro l hl
    have : l = [] := List.length_eq_zero.mp (by omega)
    subst this
    exact ⟨[], by rw [chunks16_eq]; simp [collectUuids], rfl⟩
  | succ n ih =>
    intro l hl
    have hne : l ≠ [] := by
      intro e
      subst e
      simp at hl
    have h16 : 16 ≤ l.length := by omega
    obtain ⟨us, hus, hlen⟩ := ih (l.drop 16) (by simp [List.length_drop]; omega)
    refine ⟨(l.take 16).reverse :: us, ?_, by simp [hlen]⟩
    rw [chunks16_eq, if_neg hne]
    simp [collectUuids, btUuid_of_chunk, h16, hus]

/-- C10: decoding a 16-byte-UUID-list record (type `0x07` =
`BT_DATA_UUID128_ALL`, or incomplete type `0x06`) panics (`none`) whenever
the payload length is not a multiple of 16 — the trailing short chunk of
`chunks(16)` makes `Uuid::from_slice(chunk).unwrap()` fail — and a payload
of exactly `16 * n` bytes decodes totally into `n` UUIDs. -/
theorem uuid_list_decode_needs_multiple_of_16 (payload : List Nat) :
    (payload.length % 16 ≠ 0 →
      BtData.from_raw 0x07 payload = none ∧
      BtData.from_raw 0x06 payload = none) ∧
    (∀ n, payload.length = 16 * n →
      ∃ uuids, BtData.from_raw 0x07 payload = some (.UuidAll uuids) ∧
        uuids.length = n) := by
  constructor
  · intro h
    have hnone := collectUuids_chunks_non_multiple payload h
    constructor <;> simp [BtData.from_raw, hnone]
  · intro n hn
    obtain ⟨us, hus, hlen⟩ := collectUuids_chunks_multiple n payload hn
    exact ⟨us, by simp [BtData.from_raw, hus], hlen⟩

/-- C10 witness for `uuid_list_decode_needs_multiple_of_16`: a 3-byte
UUID-list payload makes the decoder panic. -/
theorem uuid_list_decode_panics_on_3_bytes :
    BtData.from_raw 0x07 [1, 2, 3] = none :=
  ((uuid_list_decode_needs_multiple_of_16 [1, 2, 3]).1 (by decide)).1

end ZephyrWrappers
